import Mathlib

/-
Verification of the Dozlab session manager
(examples/kubernetes-api/python/create_session.py).

The development shallowly embeds the core logic of the session manager:

* the variable substitution performed by the Python `string.Template`
  `safe_substitute` (a tokenizer over `$`-placeholders plus a renderer);
* the canonical naming scheme mapping a session id to the pod, service and
  secret names;
* `create_session`, `delete_session` and `get_session_status`, written as
  state-passing functions over an abstract Resource Gateway (the Kubernetes
  CoreV1 API is an external collaborator: it is a record of response
  functions, and every call the manager issues is recorded in a trace);
* a reference gateway instance over a finite cluster state, used where a
  claim depends on the documented semantics of the collaborator
  (create/read/delete of named resources, 404 on absent names).

External effects of the Python code are made explicit: the generated
password (`secrets.token_urlsafe`) is a parameter, YAML parsing is an
oracle parameter, and printed lines are returned as a log.
-/

namespace Dozlab

/-! ## Characters and identifier classes used by `string.Template`

The Python `string.Template` uses the delimiter `$` and the ASCII identifier
pattern `[_a-zA-Z][_a-zA-Z0-9]*`. -/

/-- The `$` delimiter character. -/
def dollarC : Char := '$'

/-- The opening brace character. -/
def lbraceC : Char := Char.ofNat 123

/-- The closing brace character. -/
def rbraceC : Char := Char.ofNat 125

/-- First character of an identifier: `[_a-zA-Z]`. -/
def isIdStart (c : Char) : Bool := c.isAlpha || decide (c = '_')

/-- Continuation character of an identifier: `[_a-zA-Z0-9]`. -/
def isIdCont (c : Char) : Bool := c.isAlphanum || decide (c = '_')

/-- A nonempty ASCII identifier, as accepted by `string.Template`. -/
def validIdent : List Char → Bool
  | [] => false
  | c :: cs => isIdStart c && List.all cs isIdCont

/-! ## Tokenizer for `string.Template.safe_substitute`

`Template.safe_substitute` scans the text once with the pattern
`\$(?:(?P<escaped>\$)|(?P<named>id)|{(?P<braced>id)}|(?P<invalid>))`;
an `invalid` match consumes just the `$` and leaves it verbatim. -/

/-- Tokens of a template text. -/
inductive STok where
  | lit (c : Char)
  | braced (name : List Char)
  | bare (name : List Char)
  | escaped
  | invalid
  deriving DecidableEq

/-- Tokens produced by templates that use only literal text and braced
placeholders, the placeholder style of `lab-pod-with-sidecar.yaml`. -/
def STok.plainTok : STok → Bool
  | STok.lit _ => true
  | STok.braced _ => true
  | _ => false

/-- Longest prefix of identifier-continuation characters, and the rest. -/
def takeIdCont : List Char → List Char × List Char
  | [] => ([], [])
  | c :: cs =>
    if isIdCont c then (c :: (takeIdCont cs).1, (takeIdCont cs).2)
    else ([], c :: cs)

/-- Finish scanning a braced placeholder: `run` is the identifier run after
the start character `e`, `rest` what follows it, `cs` the input right after
the `$` (used when the braced form fails to match). -/
def bracedEnd (e : Char) (run rest cs : List Char) : STok × List Char :=
  match rest with
  | f :: fs => if f = rbraceC then (STok.braced (e :: run), fs) else (STok.invalid, cs)
  | [] => (STok.invalid, cs)

/-- One scanning step on head character `c` with remaining input `cs`. -/
def nextStep (c : Char) (cs : List Char) : STok × List Char :=
  if c = dollarC then
    match cs with
    | [] => (STok.invalid, [])
    | d :: ds =>
      if d = dollarC then (STok.escaped, ds)
      else if d = lbraceC then
        match ds with
        | [] => (STok.invalid, cs)
        | e :: es =>
          if isIdStart e then bracedEnd e (takeIdCont es).1 (takeIdCont es).2 cs
          else (STok.invalid, cs)
      else if isIdStart d then (STok.bare (d :: (takeIdCont ds).1), (takeIdCont ds).2)
      else (STok.invalid, cs)
  else (STok.lit c, cs)

/-- Fuelled tokenizer; each step consumes at least one character, so
`cs.length` fuel always suffices. -/
def tokenizeFuel : Nat → List Char → List STok
  | 0, _ => []
  | _ + 1, [] => []
  | k + 1, c :: cs => (nextStep c cs).1 :: tokenizeFuel k (nextStep c cs).2

/-- Tokenize a template text. -/
def tokenize (cs : List Char) : List STok := tokenizeFuel cs.length cs

/-- First-match lookup in the variable mapping (Python dict keys are
unique, so first-match agrees with dict lookup). -/
def lookupVar : List (List Char × List Char) → List Char → Option (List Char)
  | [], _ => none
  | p :: ps, n => if p.1 = n then some p.2 else lookupVar ps n

/-- Render one token under a variable mapping, exactly as
`safe_substitute` does: mapped placeholders are replaced, unmapped ones are
left verbatim, `$$` becomes `$`, an invalid `$` is left as `$`. -/
def renderTok (m : List (List Char × List Char)) : STok → List Char
  | STok.lit c => [c]
  | STok.braced n =>
    match lookupVar m n with
    | some v => v
    | none => dollarC :: lbraceC :: (n ++ [rbraceC])
  | STok.bare n =>
    match lookupVar m n with
    | some v => v
    | none => dollarC :: n
  | STok.escaped => [dollarC]
  | STok.invalid => [dollarC]

/-- Source text of a token. -/
def tokText : STok → List Char
  | STok.lit c => [c]
  | STok.braced n => dollarC :: lbraceC :: (n ++ [rbraceC])
  | STok.bare n => dollarC :: n
  | STok.escaped => [dollarC, dollarC]
  | STok.invalid => [dollarC]

/-- Embedding of `Template(text).safe_substitute(mapping)`
(create_session.py line 100). -/
def safeSubstitute (tmpl : List Char) (m : List (List Char × List Char)) : List Char :=
  List.flatten (List.map (renderTok m) (tokenize tmpl))

/-- Text of a braced placeholder for name `n`. -/
def bracedPat (n : List Char) : List Char := dollarC :: lbraceC :: (n ++ [rbraceC])

/-- The text contains a braced placeholder occurrence for name `n`. -/
def bracedOccurs (s n : List Char) : Prop := ∃ t u, s = t ++ bracedPat n ++ u

/-- The text contains a bare placeholder occurrence `$n` for name `n`
(maximal: not followed by another identifier character). -/
def bareOccurs (s n : List Char) : Prop :=
  ∃ t u, s = t ++ (dollarC :: n) ++ u ∧ ∀ c, u.head? = some c → isIdCont c = false

/-- The text contains an unresolved placeholder for name `n`. -/
def unresolvedIn (s n : List Char) : Prop := bracedOccurs s n ∨ bareOccurs s n

/-! ## Canonical naming scheme

create_session.py lines 170-172 and 262: the pod, service and secret names
are derived from the session id alone. -/

/-- Prefix of pod and secret names. -/
def sessionPre : String := "lab-session-"

/-- Prefix of service names. -/
def servicePre : String := "lab-service-"

/-- Suffix of secret names. -/
def secretsSuf : String := "-secrets"

/-- Canonical pod name: `lab-session-{session_id}`. -/
def podName (session_id : String) : String := sessionPre ++ session_id

/-- Canonical service name: `lab-service-{session_id}`. -/
def serviceName (session_id : String) : String := servicePre ++ session_id

/-- Canonical secret name: `lab-session-{session_id}-secrets`. -/
def secretName (session_id : String) : String := sessionPre ++ session_id ++ secretsSuf

/-- The id ends with the `-secrets` suffix. -/
def endsWithSecrets (s : String) : Prop := ∃ x : String, s = x ++ secretsSuf

/-! ## Data model of the Resource Gateway -/

/-- The empty string. -/
def emptyStr : String := ""

/-- Resource kinds the session manager dispatches on. -/
inductive RKind where
  | pod
  | service
  | secret
  deriving DecidableEq

/-- Error object of the orchestrator API, mirroring `ApiException`
(an HTTP status and a reason string). -/
structure ApiErr where
  status : Nat
  reason : String
  deriving DecidableEq

/-- A parsed manifest document, as far as the session manager inspects it:
its `kind` and its `metadata.name` (each possibly absent). -/
structure Doc where
  kind : Option String
  name : Option String
  deriving DecidableEq

/-- Container status as reported by the orchestrator (name, readiness,
restart count, state description). -/
structure ContainerStatusObj where
  name : String
  ready : Bool
  restart_count : Nat
  state : String
  deriving DecidableEq

/-- A pod object as far as `get_session_status` inspects it. -/
structure PodObj where
  user_id : Option String
  phase : String
  creation_timestamp : String
  container_statuses : Option (List ContainerStatusObj)
  deriving DecidableEq

deriving instance DecidableEq for Except

/-- The Resource Gateway collaborator: response functions over a cluster
state type `σ`, returning acknowledgment objects of type `α` for creates.
These stand for `create_namespaced_{pod,service,secret}`,
`delete_namespaced_{pod,service,secret}` and `read_namespaced_pod`. -/
structure K8s (σ α : Type) where
  createRes : RKind → Doc → σ → σ × Except ApiErr α
  deleteRes : RKind → String → σ → σ × Except ApiErr Unit
  readPod : String → σ → σ × Except ApiErr PodObj

/-- One recorded gateway call: what the manager asked for, and (for
creates) the response it received. -/
inductive GwCall (α : Type) where
  | createCall (k : RKind) (name : Option String) (res : Except ApiErr α)
  | deleteCall (k : RKind) (name : String)
  | readCall (name : String)
  deriving DecidableEq

/-- The `created` dictionary accumulated by `create_session`: at most one
gateway acknowledgment per resource kind. -/
structure CreatedMap (α : Type) where
  pod : Option α
  service : Option α
  secret : Option α
  deriving DecidableEq

/-- The initial empty `created` dictionary. -/
def CreatedMap.empty {α : Type} : CreatedMap α := ⟨none, none, none⟩

/-- Record an acknowledgment under its kind, as the assignments into the
`created` dictionary do. -/
def setAck {α : Type} (k : RKind) (m : CreatedMap α) (a : α) : CreatedMap α :=
  match k with
  | RKind.pod => ⟨some a, m.service, m.secret⟩
  | RKind.service => ⟨m.pod, some a, m.secret⟩
  | RKind.secret => ⟨m.pod, m.service, some a⟩

/-- Replay a recorded call against a `created` dictionary: successful
creates store their acknowledgment, everything else changes nothing. -/
def applyAck {α : Type} (m : CreatedMap α) (ev : GwCall α) : CreatedMap α :=
  match ev with
  | GwCall.createCall k _ (Except.ok a) => setAck k m a
  | _ => m

/-- Errors of a `create_session` call: the YAML parse failed, or a
gateway submission failed. -/
inductive CreateErr where
  | render (msg : String)
  | api (e : ApiErr)
  deriving DecidableEq

/-- Result of the submission loop of `create_session`. -/
structure LoopOut (σ α : Type) where
  st : σ
  trace : List (GwCall α)
  log : List String
  result : Except ApiErr (CreatedMap α)
  deriving DecidableEq

/-- Result of `create_session`. -/
structure CreateOut (σ α : Type) where
  st : σ
  trace : List (GwCall α)
  log : List String
  result : Except CreateErr (CreatedMap α)
  deriving DecidableEq

/-- Report of a `delete_session` call: the lines accumulated in its
`deleted` list and the warnings printed for non-404 failures.  The code
prints `Session not found` exactly when `deleted` ends up empty. -/
structure DeleteReport where
  deleted : List String
  warnings : List String
  deriving DecidableEq

/-- Result of `delete_session`. -/
structure DeleteOut (σ α : Type) where
  st : σ
  trace : List (GwCall α)
  report : DeleteReport
  deriving DecidableEq

/-- The status dictionary built by `get_session_status`. -/
structure SessionStatus where
  session_id : String
  user_id : Option String
  phase : String
  created : String
  containers : List ContainerStatusObj
  deriving DecidableEq

/-- Outcome of `get_session_status`: the status dictionary, or `None`
after printing `Session not found` (404), or `None` after printing the API
error reason. -/
inductive StatusResult where
  | ok (st : SessionStatus)
  | notFound
  | apiError (reason : String)
  deriving DecidableEq

/-- Result of `get_session_status`. -/
structure StatusOut (σ α : Type) where
  st : σ
  trace : List (GwCall α)
  result : StatusResult
  deriving DecidableEq

/-! ## Messages printed by the manager -/

/-- Prefix of the `deleted` entry for the pod. -/
def msgPodPre : String := "Pod: "

/-- Prefix of the `deleted` entry for the service. -/
def msgServicePre : String := "Service: "

/-- Prefix of the `deleted` entry for the secret. -/
def msgSecretPre : String := "Secret: "

/-- Warning prefix for a failed pod deletion. -/
def warnPodPre : String := "Warning: Failed to delete pod: "

/-- Warning prefix for a failed service deletion. -/
def warnServicePre : String := "Warning: Failed to delete service: "

/-- Warning prefix for a failed secret deletion. -/
def warnSecretPre : String := "Warning: Failed to delete secret: "

/-- The `kind` strings the creation loop dispatches on. -/
def kindPodS : String := "Pod"

/-- The Service kind string. -/
def kindServiceS : String := "Service"

/-- The Secret kind string. -/
def kindSecretS : String := "Secret"

/-- Kind string of a resource kind, for messages. -/
def kindName (k : RKind) : String :=
  match k with
  | RKind.pod => kindPodS
  | RKind.service => kindServiceS
  | RKind.secret => kindSecretS

/-- Placeholder used when a document carries no `metadata.name`
(Python prints `None`). -/
def noneStr : String := "None"

/-- Separator in printed messages. -/
def colonSp : String := ": "

/-- Space separator in printed messages. -/
def spaceStr : String := " "

/-- Prefix of the creation success lines. -/
def createdMsgPre : String := "Created "

/-- Creation success line for a resource. -/
def createdMsg (kind : String) (name : Option String) : String :=
  createdMsgPre ++ kind ++ colonSp ++ Option.getD name noneStr

/-- Prefix of the creation failure line. -/
def failMsgPre : String := "Failed to create "

/-- Creation failure line for a resource. -/
def failMsg (kind : String) (name : Option String) (reason : String) : String :=
  failMsgPre ++ kind ++ spaceStr ++ Option.getD name noneStr ++ colonSp ++ reason

/-- Header line of the access information block. -/
def sessionLine : String := "Lab Session Created: "

/-- User line of the access information block. -/
def userLine : String := "User ID: "

/-- Rootfs line of the access information block. -/
def rootfsLine : String := "Rootfs: "

/-- Password line of the access information block. -/
def pwLine : String := "VS Code Password: "

/-- The access information printed at the end of a successful
`create_session` call (lines 148-160), restricted to its data lines. -/
def accessLog (session_id user_id rootfs_url vscode_password : String) : List String :=
  [sessionLine ++ session_id, userLine ++ user_id,
   rootfsLine ++ rootfs_url, pwLine ++ vscode_password]

/-! ## Options and the variable mapping -/

/-- The optional keyword arguments of `create_session` (`**kwargs`), one
field per key the code reads. -/
structure Options where
  vscode_password : Option String
  vm_cpu : Option Nat
  vm_memory : Option Nat
  disk_size : Option String
  terminal_image : Option String
  vm_memory_limit : Option String
  vm_cpu_limit : Option String
  vm_memory_request : Option String
  vm_cpu_request : Option String
  kernel_size_limit : Option String
  vm_data_size_limit : Option String
  vscode_data_size_limit : Option String
  deriving DecidableEq

/-- Options with every keyword argument absent. -/
def noOptions : Options :=
  ⟨none, none, none, none, none, none, none, none, none, none, none, none⟩

/-- Line 78: the password is the vscode_password keyword argument `or`
the generated one — Python `or` treats the empty string (and an absent
key) as falsy, so both fall back to the generated password. -/
def resolvePassword (supplied : Option String) (generated : String) : String :=
  match supplied with
  | none => generated
  | some p => if p = emptyStr then generated else p

/-- Variable name `SESSION_ID`. -/
def varSessionId : String := "SESSION_ID"

/-- Variable name `USER_ID`. -/
def varUserId : String := "USER_ID"

/-- Variable name `ROOTFS_IMAGE_URL`. -/
def varRootfs : String := "ROOTFS_IMAGE_URL"

/-- Variable name `VSCODE_PASSWORD`. -/
def varVscodePassword : String := "VSCODE_PASSWORD"

/-- Variable name `DISK_SIZE`. -/
def varDiskSize : String := "DISK_SIZE"

/-- Variable name `VM_CPU`. -/
def varVmCpu : String := "VM_CPU"

/-- Variable name `VM_MEMORY`. -/
def varVmMemory : String := "VM_MEMORY"

/-- Variable name `TERMINAL_IMAGE`. -/
def varTerminalImage : String := "TERMINAL_IMAGE"

/-- Variable name `VM_MEMORY_LIMIT`. -/
def varVmMemoryLimit : String := "VM_MEMORY_LIMIT"

/-- Variable name `VM_CPU_LIMIT`. -/
def varVmCpuLimit : String := "VM_CPU_LIMIT"

/-- Variable name `VM_MEMORY_REQUEST`. -/
def varVmMemoryRequest : String := "VM_MEMORY_REQUEST"

/-- Variable name `VM_CPU_REQUEST`. -/
def varVmCpuRequest : String := "VM_CPU_REQUEST"

/-- Variable name `KERNEL_SIZE_LIMIT`. -/
def varKernelSizeLimit : String := "KERNEL_SIZE_LIMIT"

/-- Variable name `VM_DATA_SIZE_LIMIT`. -/
def varVmDataSizeLimit : String := "VM_DATA_SIZE_LIMIT"

/-- Variable name `VSCODE_DATA_SIZE_LIMIT`. -/
def varVscodeDataSizeLimit : String := "VSCODE_DATA_SIZE_LIMIT"

/-- Default disk size. -/
def defDiskSize : String := "4G"

/-- Default terminal sidecar image. -/
def defTerminalImage : String := "dozman99/dozlab-terminal:latest"

/-- Default container memory limit. -/
def defVmMemoryLimit : String := "2Gi"

/-- Default container CPU limit. -/
def defVmCpuLimit : String := "1500m"

/-- Default container memory request. -/
def defVmMemoryRequest : String := "1Gi"

/-- Default container CPU request. -/
def defVmCpuRequest : String := "500m"

/-- Default kernel volume size. -/
def defKernelSizeLimit : String := "2Gi"

/-- Default VM data volume size. -/
def defVmDataSizeLimit : String := "5Gi"

/-- Default VS Code data volume size. -/
def defVscodeDataSizeLimit : String := "1Gi"

/-- Lines 81-97: the variable substitution mapping, in source order, with
the default of each option applied when absent. -/
def buildVariables (session_id user_id rootfs_url vscode_password : String)
    (o : Options) : List (String × String) :=
  [(varSessionId, session_id),
   (varUserId, user_id),
   (varRootfs, rootfs_url),
   (varVscodePassword, vscode_password),
   (varDiskSize, Option.getD o.disk_size defDiskSize),
   (varVmCpu, toString (Option.getD o.vm_cpu 1)),
   (varVmMemory, toString (Option.getD o.vm_memory 1024)),
   (varTerminalImage, Option.getD o.terminal_image defTerminalImage),
   (varVmMemoryLimit, Option.getD o.vm_memory_limit defVmMemoryLimit),
   (varVmCpuLimit, Option.getD o.vm_cpu_limit defVmCpuLimit),
   (varVmMemoryRequest, Option.getD o.vm_memory_request defVmMemoryRequest),
   (varVmCpuRequest, Option.getD o.vm_cpu_request defVmCpuRequest),
   (varKernelSizeLimit, Option.getD o.kernel_size_limit defKernelSizeLimit),
   (varVmDataSizeLimit, Option.getD o.vm_data_size_limit defVmDataSizeLimit),
   (varVscodeDataSizeLimit, Option.getD o.vscode_data_size_limit defVscodeDataSizeLimit)]

/-- First-match lookup in a string association list. -/
def lookupStr : List (String × String) → String → Option String
  | [], _ => none
  | p :: ps, k => if p.1 = k then some p.2 else lookupStr ps k

/-- Line 100: apply `safe_substitute` to the template text. -/
def substituteStr (template : String) (varMap : List (String × String)) : String :=
  String.mk (safeSubstitute template.data
    (List.map (fun p => (p.1.data, p.2.data)) varMap))

/-! ## delete_session (lines 163-214) -/

/-- Entry appended to the `deleted` list when a deletion succeeded. -/
def delMark (r : Except ApiErr Unit) (m : String) : List String :=
  match r with
  | Except.ok _ => [m]
  | Except.error _ => []

/-- Warning emitted for a deletion failure whose status is not 404
(`if e.status != 404: print warning`). -/
def delWarn (r : Except ApiErr Unit) (pre : String) : List String :=
  match r with
  | Except.ok _ => []
  | Except.error e => if e.status = 404 then [] else [pre ++ e.reason]

/-- Embedding of `delete_session`: attempt deletion of the three canonical
resources independently, collecting the `deleted` entries and the non-404
warnings; a 404 is silently tolerated. -/
def delete_session {σ α : Type} (gw : K8s σ α) (session_id : String) (s : σ) :
    DeleteOut σ α :=
  let pod_name := podName session_id
  let service_name := serviceName session_id
  let secret_name := secretName session_id
  let r1 := gw.deleteRes RKind.pod pod_name s
  let r2 := gw.deleteRes RKind.service service_name r1.1
  let r3 := gw.deleteRes RKind.secret secret_name r2.1
  ⟨r3.1,
   [GwCall.deleteCall RKind.pod pod_name,
    GwCall.deleteCall RKind.service service_name,
    GwCall.deleteCall RKind.secret secret_name],
   ⟨delMark r1.2 (msgPodPre ++ pod_name) ++ delMark r2.2 (msgServicePre ++ service_name)
      ++ delMark r3.2 (msgSecretPre ++ secret_name),
    delWarn r1.2 warnPodPre ++ delWarn r2.2 warnServicePre ++ delWarn r3.2 warnSecretPre⟩⟩

/-- The three deletion calls issued by `delete_session` (and by the
rollback inside `create_session`), in source order. -/
def rollbackCalls (α : Type) (session_id : String) : List (GwCall α) :=
  [GwCall.deleteCall RKind.pod (podName session_id),
   GwCall.deleteCall RKind.service (serviceName session_id),
   GwCall.deleteCall RKind.secret (secretName session_id)]

/-! ## create_session (lines 49-161) -/

/-- Dispatch of the creation loop on the `kind` of a document
(the `if kind == Pod / elif Service / elif Secret` chain;
anything else falls through silently). -/
def kindOf (d : Doc) : Option RKind :=
  if d.kind = some kindPodS then some RKind.pod
  else if d.kind = some kindServiceS then some RKind.service
  else if d.kind = some kindSecretS then some RKind.secret
  else none

/-- The creation loop (lines 108-145): null documents and unrecognized
kinds are skipped; a successful submission is recorded into `created`; on
the first `ApiException` the loop calls `delete_session` and re-raises the
triggering error. -/
def submitLoop {σ α : Type} (gw : K8s σ α) (session_id : String) :
    List (Option Doc) → σ → CreatedMap α → List (GwCall α) → List String →
    LoopOut σ α
  | [], s, acc, tr, log => ⟨s, tr, log, Except.ok acc⟩
  | none :: rest, s, acc, tr, log => submitLoop gw session_id rest s acc tr log
  | some d :: rest, s, acc, tr, log =>
    match kindOf d with
    | none => submitLoop gw session_id rest s acc tr log
    | some k =>
      match gw.createRes k d s with
      | (s1, Except.ok a) =>
        submitLoop gw session_id rest s1 (setAck k acc a)
          (tr ++ [GwCall.createCall k d.name (Except.ok a)])
          (log ++ [createdMsg (kindName k) d.name])
      | (s1, Except.error e) =>
        let dOut := delete_session gw session_id s1
        ⟨dOut.st,
         tr ++ [GwCall.createCall k d.name (Except.error e)] ++ dOut.trace,
         log ++ [failMsg (kindName k) d.name e.reason],
         Except.error e⟩

/-- Embedding of `create_session`: resolve the password, build the
variable mapping, substitute it into the template, parse the result
(`yaml.safe_load_all`, an external oracle `parse`), then submit every
document; on success print the access block and return `created`.
`genPwd` stands for the value of `secrets.token_urlsafe(32)`. -/
def create_session {σ α : Type} (gw : K8s σ α)
    (parse : String → Except String (List (Option Doc)))
    (template session_id user_id rootfs_url : String) (opts : Options)
    (genPwd : String) (s : σ) : CreateOut σ α :=
  match parse (substituteStr template
      (buildVariables session_id user_id rootfs_url
        (resolvePassword opts.vscode_password genPwd) opts)) with
  | Except.error msg => ⟨s, [], [], Except.error (CreateErr.render msg)⟩
  | Except.ok resources =>
    match submitLoop gw session_id resources s CreatedMap.empty [] [] with
    | ⟨s2, tr, log, Except.error e⟩ => ⟨s2, tr, log, Except.error (CreateErr.api e)⟩
    | ⟨s2, tr, log, Except.ok created⟩ =>
      ⟨s2, tr,
       log ++ accessLog session_id user_id rootfs_url
         (resolvePassword opts.vscode_password genPwd),
       Except.ok created⟩

/-! ## get_session_status (lines 252-295) -/

/-- Embedding of `get_session_status`: read the pod at the canonical pod
name; on success build the status dictionary, keeping the pod phase
unchanged and an empty container list when `container_statuses` is absent;
on a 404 report `Session not found`; otherwise report the error reason. -/
def get_session_status {σ α : Type} (gw : K8s σ α) (session_id : String) (s : σ) :
    StatusOut σ α :=
  let pod_name := podName session_id
  let r := gw.readPod pod_name s
  match r.2 with
  | Except.ok pod =>
    ⟨r.1, [GwCall.readCall pod_name],
     StatusResult.ok
       ⟨session_id, pod.user_id, pod.phase, pod.creation_timestamp,
        (match pod.container_statuses with
         | none => []
         | some l => l)⟩⟩
  | Except.error e =>
    ⟨r.1, [GwCall.readCall pod_name],
     if e.status = 404 then StatusResult.notFound else StatusResult.apiError e.reason⟩

/-! ## A reference gateway over a finite cluster state

Modelled from the spec: the Resource Gateway itself is an external
collaborator (`create/read/delete a single named resource of a given kind
in a namespace`, with `idempotent-on-404 semantics` for deletes); it is
not part of the repository source.  The reference instance keeps the set
of existing (kind, name) pairs: creating an existing name is rejected with
a conflict, deleting or reading an absent name yields a 404, deleting an
existing name removes it. -/

/-- The cluster state: the resources that currently exist. -/
abbrev ClusterState := List (RKind × String)

/-- Reason string of a 404 response. -/
def reasonNotFound : String := "Not Found"

/-- Reason string of a 409 response. -/
def reasonConflict : String := "Conflict"

/-- The 404 error object. -/
def apiNotFound : ApiErr := ⟨404, reasonNotFound⟩

/-- The 409 error object. -/
def apiConflict : ApiErr := ⟨409, reasonConflict⟩

/-- Name under which a document is created (its `metadata.name`). -/
def docName (d : Doc) : String := Option.getD d.name emptyStr

/-- A fixed phase value for pods served by the reference gateway. -/
def phaseRunning : String := "Running"

/-- The pod object served by the reference gateway. -/
def defaultPodObj : PodObj := ⟨none, phaseRunning, emptyStr, none⟩

/-- Reference create: conflict when the name exists, else add it. -/
def refCreate (k : RKind) (d : Doc) (st : ClusterState) :
    ClusterState × Except ApiErr String :=
  if (k, docName d) ∈ st then (st, Except.error apiConflict)
  else ((k, docName d) :: st, Except.ok (docName d))

/-- Reference delete: remove the name when it exists, else 404. -/
def refDelete (k : RKind) (n : String) (st : ClusterState) :
    ClusterState × Except ApiErr Unit :=
  if (k, n) ∈ st then (List.filter (fun p => decide (p ≠ (k, n))) st, Except.ok ())
  else (st, Except.error apiNotFound)

/-- Reference read: serve the pod when it exists, else 404. -/
def refRead (n : String) (st : ClusterState) : ClusterState × Except ApiErr PodObj :=
  if (RKind.pod, n) ∈ st then (st, Except.ok defaultPodObj)
  else (st, Except.error apiNotFound)

/-- The reference gateway. -/
def refGw : K8s ClusterState String := ⟨refCreate, refDelete, refRead⟩

/-! ## Token shape invariant of the tokenizer -/

/-- Well-formedness of produced tokens: literal tokens are never the
delimiter, placeholder names are valid identifiers. -/
def tokOk : STok → Prop
  | STok.lit c => c ≠ dollarC
  | STok.braced n => validIdent n = true
  | STok.bare n => validIdent n = true
  | STok.escaped => True
  | STok.invalid => True

/-! ## Concrete fixtures used to evaluate the theorems -/

/-- The session id of the demo scenario in the spec. -/
def sidW : String := "demo-1"

/-- A demo user id. -/
def uidW : String := "alice"

/-- A demo rootfs URL. -/
def urlW : String := "https://x/img.ext4"

/-- A caller-supplied password. -/
def pwS : String := "pw-123"

/-- A generated password value. -/
def genW : String := "gen-456"

/-- Options carrying a caller-supplied password. -/
def optsPw : Options :=
  ⟨some pwS, none, none, none, none, none, none, none, none, none, none, none⟩

/-- Acknowledgment string for the pod create. -/
def ackPodS : String := "ack-pod"

/-- Acknowledgment string for the service create. -/
def ackSvcS : String := "ack-svc"

/-- Acknowledgment string for the secret create. -/
def ackSecS : String := "ack-sec"

/-- Acknowledgment served per kind by the concrete gateways. -/
def ackOf (k : RKind) : String :=
  match k with
  | RKind.pod => ackPodS
  | RKind.service => ackSvcS
  | RKind.secret => ackSecS

/-- A stateless gateway on which every create succeeds. -/
def gwOk : K8s Unit String :=
  ⟨fun k _ _ => ((), Except.ok (ackOf k)),
   fun _ _ _ => ((), Except.ok ()),
   fun _ _ => ((), Except.error apiNotFound)⟩

/-- A stateless gateway that rejects the service create with a conflict. -/
def gwFailSvc : K8s Unit String :=
  ⟨fun k _ _ =>
    match k with
    | RKind.service => ((), Except.error apiConflict)
    | _ => ((), Except.ok (ackOf k)),
   fun _ _ _ => ((), Except.ok ()),
   fun _ _ => ((), Except.error apiNotFound)⟩

/-- A stateless gateway on which every delete reports 404. -/
def gw404 : K8s Unit String :=
  ⟨fun k _ _ => ((), Except.ok (ackOf k)),
   fun _ _ _ => ((), Except.error apiNotFound),
   fun _ _ => ((), Except.error apiNotFound)⟩

/-- A demo pod document. -/
def docPodW : Doc := ⟨some kindPodS, some (podName sidW)⟩

/-- A demo service document. -/
def docSvcW : Doc := ⟨some kindServiceS, some (serviceName sidW)⟩

/-- A demo secret document. -/
def docSecW : Doc := ⟨some kindSecretS, some (secretName sidW)⟩

/-- A kind the creation loop does not recognize. -/
def kindCfgS : String := "ConfigMap"

/-- A document of unrecognized kind. -/
def docCfgW : Doc := ⟨some kindCfgS, some sidW⟩

/-- A parse oracle producing the three demo documents. -/
def parseOkW : String → Except String (List (Option Doc)) :=
  fun _ => Except.ok [some docPodW, some docSvcW, some docSecW]

/-- A parse failure message. -/
def errMsgW : String := "mapping values are not allowed here"

/-- A parse oracle that always fails. -/
def parseFailW : String → Except String (List (Option Doc)) :=
  fun _ => Except.error errMsgW

/-- An empty template text. -/
def emptyTemplate : String := emptyStr

/-- The session id `demo` of the naming counterexample. -/
def demoId : String := "demo"

/-- The session id `demo-secrets` of the naming counterexample. -/
def demoSecretsId : String := "demo-secrets"

/-- A first session id for evaluating the naming theorem. -/
def idA : String := "alpha"

/-- A second session id for evaluating the naming theorem. -/
def idB : String := "beta"

/-- The placeholder name `A` as a character list. -/
def aNameL : List Char := ['A']

/-- Template text `${A}` of the substitution counterexample. -/
def cexTmpl : List Char := [dollarC, lbraceC, 'A', rbraceC]

/-- Mapping sending `A` to the text `${A}` (a value that itself contains
placeholder syntax). -/
def cexMap : List (List Char × List Char) :=
  [(aNameL, [dollarC, lbraceC, 'A', rbraceC])]

/-- A braced-only template `${A}x` for evaluating the substitution
theorem. -/
def tmplW5 : List Char := [dollarC, lbraceC, 'A', rbraceC, 'x']

/-- A mapping with a delimiter-free value for `A`. -/
def mapW5 : List (List Char × List Char) := [(aNameL, ['o', 'k'])]

/-! ## Naming scheme lemmas -/

theorem podName_inj {a b : String} (h : podName a = podName b) : a = b := by
  have hd : sessionPre.data ++ a.data = sessionPre.data ++ b.data := by
    simpa [podName, String.data_append] using congrArg String.data h
  exact String.ext (List.append_cancel_left hd)

theorem serviceName_inj {a b : String} (h : serviceName a = serviceName b) : a = b := by
  have hd : servicePre.data ++ a.data = servicePre.data ++ b.data := by
    simpa [serviceName, String.data_append] using congrArg String.data h
  exact String.ext (List.append_cancel_left hd)

theorem secretName_inj {a b : String} (h : secretName a = secretName b) : a = b := by
  have hd : sessionPre.data ++ (a.data ++ secretsSuf.data)
      = sessionPre.data ++ (b.data ++ secretsSuf.data) := by
    simpa [secretName, String.data_append, List.append_assoc]
      using congrArg String.data h
  exact String.ext (List.append_cancel_right (List.append_cancel_left hd))

theorem podName_ne_serviceName (a b : String) : podName a ≠ serviceName b := by
  intro h
  have hd : sessionPre.data ++ a.data = servicePre.data ++ b.data := by
    simpa [podName, serviceName, String.data_append] using congrArg String.data h
  have hpre := (List.append_inj hd (by decide)).1
  exact absurd hpre (by decide)

theorem serviceName_ne_secretName (a b : String) : serviceName a ≠ secretName b := by
  intro h
  have hd : servicePre.data ++ a.data
      = sessionPre.data ++ (b.data ++ secretsSuf.data) := by
    simpa [serviceName, secretName, String.data_append, List.append_assoc]
      using congrArg String.data h
  have hpre := (List.append_inj hd (by decide)).1
  exact absurd hpre (by decide)

theorem podName_eq_secretName {a b : String} (h : podName a = secretName b) :
    a = b ++ secretsSuf := by
  have hd : sessionPre.data ++ a.data
      = sessionPre.data ++ (b.data ++ secretsSuf.data) := by
    simpa [podName, secretName, String.data_append, List.append_assoc]
      using congrArg String.data h
  have hab : a.data = b.data ++ secretsSuf.data := List.append_cancel_left hd
  apply String.ext
  rw [String.data_append]
  exact hab

theorem short_not_secrets {s : String} (h : s.length < secretsSuf.length) :
    ¬ endsWithSecrets s := by
  rintro ⟨x, rfl⟩
  rw [String.length_append] at h
  omega

/-- C4 counterexample: the naming scheme is not injective across kinds
over all distinct ids — the secret name of `demo` equals the pod name of
`demo-secrets`. -/
theorem canonical_names_collision_cex :
    secretName demoId = podName demoSecretsId ∧ demoId ≠ demoSecretsId := by
  constructor
  · decide
  · decide

/-- C4 (amended): the naming scheme is deterministic, and for distinct
session ids neither of which ends in `-secrets`, no canonical name derived
from one id equals any canonical name derived from the other (the only
possible cross-id collision is pod(a) = secret(b) with a = b ++
`-secrets`). -/
theorem canonical_names_spec (a b : String) (hab : a ≠ b)
    (ha : ¬ endsWithSecrets a) (hb : ¬ endsWithSecrets b) :
    (∀ c d : String, c = d →
      podName c = podName d ∧ serviceName c = serviceName d ∧ secretName c = secretName d)
    ∧ podName a ≠ podName b
    ∧ podName a ≠ serviceName b
    ∧ podName a ≠ secretName b
    ∧ serviceName a ≠ podName b
    ∧ serviceName a ≠ serviceName b
    ∧ serviceName a ≠ secretName b
    ∧ secretName a ≠ podName b
    ∧ secretName a ≠ serviceName b
    ∧ secretName a ≠ secretName b := by
  refine ⟨fun c d h => by rw [h]; exact ⟨rfl, rfl, rfl⟩,
    fun h => hab (podName_inj h),
    podName_ne_serviceName a b,
    fun h => ha ⟨b, podName_eq_secretName h⟩,
    fun h => podName_ne_serviceName b a h.symm,
    fun h => hab (serviceName_inj h),
    serviceName_ne_secretName a b,
    fun h => hb ⟨a, podName_eq_secretName h.symm⟩,
    fun h => serviceName_ne_secretName b a h.symm,
    fun h => hab (secretName_inj h)⟩

/-- Concrete evaluation of `canonical_names_spec` at the ids `alpha` and
`beta`. -/
theorem canonical_names_spec_witness :
    idA ≠ idB ∧ podName idA ≠ secretName idB :=
  ⟨by decide,
   (canonical_names_spec idA idB (by decide)
     (short_not_secrets (by decide)) (short_not_secrets (by decide))).2.2.2.1⟩

/-- C10: an absent or empty caller-supplied password resolves to the
generated password, a non-empty caller-supplied password is used as given,
and the resolved value is what the variable mapping binds to
`VSCODE_PASSWORD`. -/
theorem vscode_password_resolution (session_id user_id rootfs_url g p : String)
    (o : Options) :
    resolvePassword (some emptyStr) g = g
    ∧ resolvePassword none g = g
    ∧ (p ≠ emptyStr → resolvePassword (some p) g = p)
    ∧ lookupStr (buildVariables session_id user_id rootfs_url
        (resolvePassword o.vscode_password g) o) varVscodePassword
      = some (resolvePassword o.vscode_password g) := by
  refine ⟨by simp [resolvePassword], rfl, fun hp => by simp [resolvePassword, hp], ?_⟩
  simp [buildVariables, lookupStr, varSessionId, varUserId, varRootfs, varVscodePassword]

/-- Concrete evaluation of `vscode_password_resolution`: a non-empty
supplied password is kept. -/
theorem vscode_password_resolution_witness :
    pwS ≠ emptyStr ∧ resolvePassword (some pwS) genW = pwS :=
  ⟨by decide,
   (vscode_password_resolution sidW uidW urlW genW pwS noOptions).2.2.1 (by decide)⟩

/-- C6: when the parse of the substituted template fails, `create_session`
returns the render error and the trace is empty — no gateway call is
issued before the failure. -/
theorem render_error_aborts_creation {σ α : Type} (gw : K8s σ α)
    (parse : String → Except String (List (Option Doc)))
    (template session_id user_id rootfs_url : String) (opts : Options)
    (genPwd : String) (s : σ) (msg : String)
    (h : parse (substituteStr template
      (buildVariables session_id user_id rootfs_url
        (resolvePassword opts.vscode_password genPwd) opts)) = Except.error msg) :
    create_session gw parse template session_id user_id rootfs_url opts genPwd s
      = ⟨s, [], [], Except.error (CreateErr.render msg)⟩ := by
  unfold create_session
  rw [h]

/-- Concrete evaluation of `render_error_aborts_creation` with a failing
parse oracle. -/
theorem render_error_aborts_creation_witness :
    create_session gwOk parseFailW emptyTemplate sidW uidW urlW optsPw genW ()
      = ⟨(), [], [], Except.error (CreateErr.render errMsgW)⟩ :=
  render_error_aborts_creation gwOk parseFailW emptyTemplate sidW uidW urlW
    optsPw genW () errMsgW rfl

/-- C8: `get_session_status` reports `notFound` when the canonical pod is
absent (a 404 read); when the pod exists it reports a status whose phase
is the pod phase unchanged and whose user id is the pod label, with an
empty container list when the orchestrator reported no container
statuses. -/
theorem get_session_status_spec {σ α : Type} (gw : K8s σ α)
    (session_id : String) (s : σ) :
    (∀ s1 e, gw.readPod (podName session_id) s = (s1, Except.error e) →
      e.status = 404 →
      get_session_status gw session_id s
        = ⟨s1, [GwCall.readCall (podName session_id)], StatusResult.notFound⟩)
    ∧ (∀ s1 pod, gw.readPod (podName session_id) s = (s1, Except.ok pod) →
      ∃ stt, get_session_status gw session_id s
          = ⟨s1, [GwCall.readCall (podName session_id)], StatusResult.ok stt⟩
        ∧ stt.phase = pod.phase
        ∧ stt.user_id = pod.user_id
        ∧ stt.session_id = session_id
        ∧ (pod.container_statuses = none → stt.containers = [])) := by
  constructor
  · intro s1 e h h404
    simp only [get_session_status]
    rw [h]
    simp [h404]
  · intro s1 pod h
    simp only [get_session_status]
    rw [h]
    refine ⟨_, rfl, rfl, rfl, rfl, fun hc => ?_⟩
    simp [hc]

/-- Concrete evaluation of `get_session_status_spec`: reading an empty
cluster yields `notFound`. -/
theorem get_session_status_spec_witness :
    get_session_status refGw sidW []
      = ⟨[], [GwCall.readCall (podName sidW)], StatusResult.notFound⟩ :=
  (get_session_status_spec refGw sidW []).1 [] apiNotFound rfl rfl

/-- Report of a `delete_session` run, expressed from the three gateway
responses it received. -/
theorem delete_session_report_eq {σ α : Type} (gw : K8s σ α)
    (session_id : String) (s s1 s2 s3 : σ) (r1 r2 r3 : Except ApiErr Unit)
    (h1 : gw.deleteRes RKind.pod (podName session_id) s = (s1, r1))
    (h2 : gw.deleteRes RKind.service (serviceName session_id) s1 = (s2, r2))
    (h3 : gw.deleteRes RKind.secret (secretName session_id) s2 = (s3, r3)) :
    (delete_session gw session_id s).report
      = ⟨delMark r1 (msgPodPre ++ podName session_id)
          ++ delMark r2 (msgServicePre ++ serviceName session_id)
          ++ delMark r3 (msgSecretPre ++ secretName session_id),
         delWarn r1 warnPodPre ++ delWarn r2 warnServicePre
          ++ delWarn r3 warnSecretPre⟩ := by
  simp only [delete_session]
  rw [h1]
  simp only
  rw [h2]
  simp only
  rw [h3]

/-- C3: given the three deletion responses of a `delete_session` run, the
all-404 case yields the empty report (printed as `Session not found`,
with no warnings); any successful deletion makes the `deleted` list
nonempty (a `found` report); any non-404 failure makes the warnings
nonempty — so both are distinguishable from the all-absent case. -/
theorem delete_session_report_spec {σ α : Type} (gw : K8s σ α)
    (session_id : String) (s s1 s2 s3 : σ) (r1 r2 r3 : Except ApiErr Unit)
    (h1 : gw.deleteRes RKind.pod (podName session_id) s = (s1, r1))
    (h2 : gw.deleteRes RKind.service (serviceName session_id) s1 = (s2, r2))
    (h3 : gw.deleteRes RKind.secret (secretName session_id) s2 = (s3, r3)) :
    ((∃ e1 e2 e3, r1 = Except.error e1 ∧ e1.status = 404
        ∧ r2 = Except.error e2 ∧ e2.status = 404
        ∧ r3 = Except.error e3 ∧ e3.status = 404) →
      (delete_session gw session_id s).report = ⟨[], []⟩)
    ∧ ((r1 = Except.ok () ∨ r2 = Except.ok () ∨ r3 = Except.ok ()) →
      (delete_session gw session_id s).report.deleted ≠ [])
    ∧ ((∃ e, (r1 = Except.error e ∨ r2 = Except.error e ∨ r3 = Except.error e)
        ∧ e.status ≠ 404) →
      (delete_session gw session_id s).report.warnings ≠ []) := by
  have hrep := delete_session_report_eq gw session_id s s1 s2 s3 r1 r2 r3 h1 h2 h3
  refine ⟨?_, ?_, ?_⟩
  · rintro ⟨e1, e2, e3, he1, hs1, he2, hs2, he3, hs3⟩
    rw [hrep, he1, he2, he3]
    simp [delMark, delWarn, hs1, hs2, hs3]
  · rintro (h | h | h) <;> rw [hrep, h] <;> simp [delMark]
  · rintro ⟨e, (h | h | h), hs⟩ <;> rw [hrep, h] <;> simp [delWarn, hs]

/-- Concrete evaluation of `delete_session_report_spec`: all three deletes
404 on the stateless 404 gateway, so the report is empty. -/
theorem delete_session_report_spec_witness :
    (delete_session gw404 sidW ()).report = ⟨[], []⟩ :=
  (delete_session_report_spec gw404 sidW () () () ()
      (Except.error apiNotFound) (Except.error apiNotFound) (Except.error apiNotFound)
      rfl rfl rfl).1
    ⟨apiNotFound, apiNotFound, apiNotFound, rfl, rfl, rfl, rfl, rfl, rfl⟩

/-! ## Reference gateway deletion lemmas -/

theorem refDelete_not_mem (k : RKind) (n : String) (st : ClusterState) :
    (k, n) ∉ (refDelete k n st).1 := by
  unfold refDelete
  split
  · intro hmem
    rcases List.mem_filter.1 hmem with ⟨-, hdec⟩
    simp at hdec
  · next h => exact h

theorem refDelete_mem_iff {p : RKind × String} (k : RKind) (n : String)
    (st : ClusterState) (hne : p ≠ (k, n)) :
    p ∈ (refDelete k n st).1 ↔ p ∈ st := by
  unfold refDelete
  split
  · simp [List.mem_filter, hne]
  · exact Iff.rfl

theorem refDelete_absent {k : RKind} {n : String} {st : ClusterState}
    (h : (k, n) ∉ st) : refDelete k n st = (st, Except.error apiNotFound) := by
  unfold refDelete
  rw [if_neg h]

/-- C7: `delete_session` is idempotent on the reference gateway — after
one `delete_session` run none of the three canonical resources exists, so
a second consecutive run observes 404 for all three kinds and reports the
empty report (`Session not found`, no warnings). -/
theorem delete_session_idempotent (st : ClusterState) (session_id : String) :
    (RKind.pod, podName session_id) ∉ (delete_session refGw session_id st).st
    ∧ (RKind.service, serviceName session_id) ∉ (delete_session refGw session_id st).st
    ∧ (RKind.secret, secretName session_id) ∉ (delete_session refGw session_id st).st
    ∧ (delete_session refGw session_id
        (delete_session refGw session_id st).st).report = ⟨[], []⟩ := by
  have hst : (delete_session refGw session_id st).st
      = (refDelete RKind.secret (secretName session_id)
          (refDelete RKind.service (serviceName session_id)
            (refDelete RKind.pod (podName session_id) st).1).1).1 := rfl
  have hpod : (RKind.pod, podName session_id) ∉ (delete_session refGw session_id st).st := by
    rw [hst]
    rw [refDelete_mem_iff _ _ _ (by simp), refDelete_mem_iff _ _ _ (by simp)]
    exact refDelete_not_mem _ _ _
  have hsvc : (RKind.service, serviceName session_id)
      ∉ (delete_session refGw session_id st).st := by
    rw [hst]
    rw [refDelete_mem_iff _ _ _ (by simp)]
    exact refDelete_not_mem _ _ _
  have hsec : (RKind.secret, secretName session_id)
      ∉ (delete_session refGw session_id st).st := by
    rw [hst]
    exact refDelete_not_mem _ _ _
  refine ⟨hpod, hsvc, hsec, ?_⟩
  have e1 : refGw.deleteRes RKind.pod (podName session_id)
      (delete_session refGw session_id st).st
      = ((delete_session refGw session_id st).st, Except.error apiNotFound) :=
    refDelete_absent hpod
  have e2 : refGw.deleteRes RKind.service (serviceName session_id)
      (delete_session refGw session_id st).st
      = ((delete_session refGw session_id st).st, Except.error apiNotFound) :=
    refDelete_absent hsvc
  have e3 : refGw.deleteRes RKind.secret (secretName session_id)
      (delete_session refGw session_id st).st
      = ((delete_session refGw session_id st).st, Except.error apiNotFound) :=
    refDelete_absent hsec
  have hrep := delete_session_report_eq refGw session_id
    (delete_session refGw session_id st).st
    (delete_session refGw session_id st).st
    (delete_session refGw session_id st).st
    (delete_session refGw session_id st).st
    (Except.error apiNotFound) (Except.error apiNotFound) (Except.error apiNotFound)
    e1 e2 e3
  rw [hrep]
  simp [delMark, delWarn, apiNotFound]

/-- C9: a rendered document whose kind is neither `Pod` nor `Service` nor
`Secret` is silently skipped by the creation loop — wherever it appears,
the run is identical to the run without it: no gateway call for it, no
entry in `created`, no error. -/
theorem submitLoop_skips_unknown_kind {σ α : Type} (gw : K8s σ α)
    (session_id : String) (d : Doc) (hp : d.kind ≠ some kindPodS)
    (hs : d.kind ≠ some kindServiceS) (hk : d.kind ≠ some kindSecretS) :
    ∀ (l r : List (Option Doc)) (s : σ) (acc : CreatedMap α)
      (tr : List (GwCall α)) (log : List String),
      submitLoop gw session_id (l ++ some d :: r) s acc tr log
        = submitLoop gw session_id (l ++ r) s acc tr log := by
  have hko : kindOf d = none := by
    simp [kindOf, hp, hs, hk]
  intro l
  induction l with
  | nil =>
    intro r s acc tr log
    simp only [List.nil_append, submitLoop]
    rw [hko]
  | cons hd tl ih =>
    intro r s acc tr log
    cases hd with
    | none =>
      simp only [List.cons_append, submitLoop]
      exact ih r s acc tr log
    | some d2 =>
      cases hkd : kindOf d2 with
      | none =>
        simp only [List.cons_append, submitLoop, hkd]
        exact ih r s acc tr log
      | some k =>
        rcases hc : gw.createRes k d2 s with ⟨s1, rr⟩
        cases rr with
        | ok a =>
          simp only [List.cons_append, submitLoop, hkd, hc]
          exact ih r s1 (setAck k acc a) _ _
        | error e =>
          simp only [List.cons_append, submitLoop, hkd, hc]

/-- Concrete evaluation of `submitLoop_skips_unknown_kind`: a `ConfigMap`
document behaves like an absent document. -/
theorem submitLoop_skips_unknown_kind_witness :
    submitLoop gwOk sidW [some docCfgW] () CreatedMap.empty [] []
      = submitLoop gwOk sidW [] () CreatedMap.empty [] [] :=
  submitLoop_skips_unknown_kind gwOk sidW docCfgW (by decide) (by decide) (by decide)
    [] [] () CreatedMap.empty [] []

/-! ## Characterization of the creation loop -/

theorem delete_session_trace {σ α : Type} (gw : K8s σ α) (session_id : String)
    (s : σ) : (delete_session gw session_id s).trace = rollbackCalls α session_id := rfl

theorem submitLoop_ok_split {σ α : Type} (gw : K8s σ α) (session_id : String) :
    ∀ (rs : List (Option Doc)) (s : σ) (acc : CreatedMap α)
      (tr : List (GwCall α)) (log : List String) (c : CreatedMap α),
      (submitLoop gw session_id rs s acc tr log).result = Except.ok c →
      ∃ new, (submitLoop gw session_id rs s acc tr log).trace = tr ++ new
        ∧ (∀ ev ∈ new, ∃ k n a, ev = GwCall.createCall k n (Except.ok a))
        ∧ c = List.foldl applyAck acc new := by
  intro rs
  induction rs with
  | nil =>
    intro s acc tr log c h
    simp only [submitLoop] at h ⊢
    exact ⟨[], by simp, by simp, by simpa using h.symm⟩
  | cons hd tl ih =>
    intro s acc tr log c h
    cases hd with
    | none =>
      simp only [submitLoop] at h ⊢
      exact ih s acc tr log c h
    | some d =>
      cases hkd : kindOf d with
      | none =>
        simp only [submitLoop, hkd] at h ⊢
        exact ih s acc tr log c h
      | some k =>
        rcases hc : gw.createRes k d s with ⟨s1, rr⟩
        cases rr with
        | ok a =>
          simp only [submitLoop, hkd, hc] at h ⊢
          obtain ⟨new, htr, hok, hfold⟩ := ih s1 (setAck k acc a) _ _ c h
          refine ⟨GwCall.createCall k d.name (Except.ok a) :: new, ?_, ?_, ?_⟩
          · rw [htr]
            simp
          · intro ev hev
            rcases List.mem_cons.1 hev with rfl | hev2
            · exact ⟨k, d.name, a, rfl⟩
            · exact hok ev hev2
          · rw [hfold]
            rfl
        | error e =>
          simp only [submitLoop, hkd, hc] at h
          exact Except.noConfusion h

theorem submitLoop_err_split {σ α : Type} (gw : K8s σ α) (session_id : String) :
    ∀ (rs : List (Option Doc)) (s : σ) (acc : CreatedMap α)
      (tr : List (GwCall α)) (log : List String) (e : ApiErr),
      (submitLoop gw session_id rs s acc tr log).result = Except.error e →
      ∃ mid k n, (submitLoop gw session_id rs s acc tr log).trace
          = tr ++ mid ++ [GwCall.createCall k n (Except.error e)]
            ++ rollbackCalls α session_id
        ∧ ∀ ev ∈ mid, ∃ k2 n2 a, ev = GwCall.createCall k2 n2 (Except.ok a) := by
  intro rs
  induction rs with
  | nil =>
    intro s acc tr log e h
    simp [submitLoop] at h
  | cons hd tl ih =>
    intro s acc tr log e h
    cases hd with
    | none =>
      simp only [submitLoop] at h ⊢
      exact ih s acc tr log e h
    | some d =>
      cases hkd : kindOf d with
      | none =>
        simp only [submitLoop, hkd] at h ⊢
        exact ih s acc tr log e h
      | some k =>
        rcases hc : gw.createRes k d s with ⟨s1, rr⟩
        cases rr with
        | ok a =>
          simp only [submitLoop, hkd, hc] at h ⊢
          obtain ⟨mid, k2, n2, htr, hok⟩ := ih s1 (setAck k acc a) _ _ e h
          refine ⟨GwCall.createCall k d.name (Except.ok a) :: mid, k2, n2, ?_, ?_⟩
          · rw [htr]
            simp
          · intro ev hev
            rcases List.mem_cons.1 hev with rfl | hev2
            · exact ⟨k, d.name, a, rfl⟩
            · exact hok ev hev2
        | error e0 =>
          simp only [submitLoop, hkd, hc] at h ⊢
          have he : e0 = e := by
            simpa using h
          subst he
          exact ⟨[], k, d.name, by simp [delete_session_trace], by simp⟩

/-- C1: when `create_session` fails with a gateway error `e`, its trace is
a run of successful creates, then the single failing create (whose
recorded response is exactly the propagated error `e`), then exactly the
three canonical deletions of the rollback — nothing further is submitted;
and when it returns success, every recorded call was a successful create,
so a partially-created set is never returned as success. -/
theorem create_session_rollback_on_failure {σ α : Type} (gw : K8s σ α)
    (parse : String → Except String (List (Option Doc)))
    (template session_id user_id rootfs_url : String) (opts : Options)
    (genPwd : String) (s : σ) :
    (∀ e, (create_session gw parse template session_id user_id rootfs_url
        opts genPwd s).result = Except.error (CreateErr.api e) →
      ∃ pre k n,
        (create_session gw parse template session_id user_id rootfs_url
          opts genPwd s).trace
          = pre ++ [GwCall.createCall k n (Except.error e)]
            ++ rollbackCalls α session_id
        ∧ ∀ ev ∈ pre, ∃ k2 n2 a, ev = GwCall.createCall k2 n2 (Except.ok a))
    ∧ (∀ c, (create_session gw parse template session_id user_id rootfs_url
        opts genPwd s).result = Except.ok c →
      ∀ ev ∈ (create_session gw parse template session_id user_id rootfs_url
        opts genPwd s).trace,
        ∃ k2 n2 a, ev = GwCall.createCall k2 n2 (Except.ok a)) := by
  cases hp : parse (substituteStr template
      (buildVariables session_id user_id rootfs_url
        (resolvePassword opts.vscode_password genPwd) opts)) with
  | error msg =>
    have hcs : create_session gw parse template session_id user_id rootfs_url
        opts genPwd s = ⟨s, [], [], Except.error (CreateErr.render msg)⟩ := by
      simp only [create_session, hp]
    constructor
    · intro e h
      rw [hcs] at h
      simp at h
    · intro c h
      rw [hcs] at h
      simp at h
  | ok resources =>
    rcases hl : submitLoop gw session_id resources s CreatedMap.empty [] []
      with ⟨s2, tr2, log2, res⟩
    cases res with
    | error e0 =>
      have hcs : create_session gw parse template session_id user_id rootfs_url
          opts genPwd s = ⟨s2, tr2, log2, Except.error (CreateErr.api e0)⟩ := by
        simp only [create_session, hp, hl]
      constructor
      · intro e h
        rw [hcs] at h
        simp only [CreateOut.mk.injEq] at h
        have he : e0 = e := by
          simpa using h
        subst he
        have hr : (submitLoop gw session_id resources s CreatedMap.empty [] []).result
            = Except.error e0 := by
          rw [hl]
        obtain ⟨mid, k, n, htr, hok⟩ :=
          submitLoop_err_split gw session_id resources s CreatedMap.empty [] [] e0 hr
        rw [hl] at htr
        simp only [List.nil_append] at htr
        refine ⟨mid, k, n, ?_, hok⟩
        rw [hcs]
        exact htr
      · intro c h
        rw [hcs] at h
        simp at h
    | ok c0 =>
      have hcs : create_session gw parse template session_id user_id rootfs_url
          opts genPwd s
          = ⟨s2, tr2,
             log2 ++ accessLog session_id user_id rootfs_url
               (resolvePassword opts.vscode_password genPwd),
             Except.ok c0⟩ := by
        simp only [create_session, hp, hl]
      constructor
      · intro e h
        rw [hcs] at h
        simp at h
      · intro c h
        have hr : (submitLoop gw session_id resources s CreatedMap.empty [] []).result
            = Except.ok c0 := by
          rw [hl]
        obtain ⟨new, htr, hok, -⟩ :=
          submitLoop_ok_split gw session_id resources s CreatedMap.empty [] [] c0 hr
        rw [hl] at htr
        simp only [List.nil_append] at htr
        intro ev hev
        rw [hcs] at hev
        simp only at hev
        rw [htr] at hev
        exact hok ev hev

/-- Concrete evaluation of `create_session_rollback_on_failure`: the
gateway rejects the service create with a conflict, and the trace ends in
the failing call followed by the three-name rollback. -/
theorem create_session_rollback_on_failure_witness :
    ∃ pre k n,
      (create_session gwFailSvc parseOkW emptyTemplate sidW uidW urlW
        optsPw genW ()).trace
        = pre ++ [GwCall.createCall k n (Except.error apiConflict)]
          ++ rollbackCalls String sidW
      ∧ ∀ ev ∈ pre, ∃ k2 n2 a, ev = GwCall.createCall k2 n2 (Except.ok a) :=
  (create_session_rollback_on_failure gwFailSvc parseOkW emptyTemplate sidW uidW
    urlW optsPw genW ()).1 apiConflict rfl

/-- C2 counterexample: a successful `create_session` run whose return
value consists exactly of the three gateway acknowledgments — none of its
components is the resolved credential, which is only printed. -/
theorem create_session_return_no_credential_cex :
    (create_session gwOk parseOkW emptyTemplate sidW uidW urlW optsPw genW ()).result
      = Except.ok ⟨some ackPodS, some ackSvcS, some ackSecS⟩
    ∧ resolvePassword optsPw.vscode_password genW = pwS
    ∧ (⟨some ackPodS, some ackSvcS, some ackSecS⟩ : CreatedMap String).pod ≠ some pwS
    ∧ (⟨some ackPodS, some ackSvcS, some ackSecS⟩ : CreatedMap String).service ≠ some pwS
    ∧ (⟨some ackPodS, some ackSvcS, some ackSecS⟩ : CreatedMap String).secret ≠ some pwS := by
  refine ⟨by decide, by decide, by decide, by decide, by decide⟩

/-- C2 (amended): on success, the returned `created` dictionary consists
exactly of the gateway acknowledgments recorded for the submitted
resources (the replay of the successful create calls in the trace), and
the resolved credential is surfaced in the printed access-information
lines, not in the return value. -/
theorem create_session_success_created {σ α : Type} (gw : K8s σ α)
    (parse : String → Except String (List (Option Doc)))
    (template session_id user_id rootfs_url : String) (opts : Options)
    (genPwd : String) (s : σ) :
    ∀ c, (create_session gw parse template session_id user_id rootfs_url
        opts genPwd s).result = Except.ok c →
      c = List.foldl applyAck CreatedMap.empty
        (create_session gw parse template session_id user_id rootfs_url
          opts genPwd s).trace
      ∧ pwLine ++ resolvePassword opts.vscode_password genPwd
        ∈ (create_session gw parse template session_id user_id rootfs_url
          opts genPwd s).log := by
  cases hp : parse (substituteStr template
      (buildVariables session_id user_id rootfs_url
        (resolvePassword opts.vscode_password genPwd) opts)) with
  | error msg =>
    have hcs : create_session gw parse template session_id user_id rootfs_url
        opts genPwd s = ⟨s, [], [], Except.error (CreateErr.render msg)⟩ := by
      simp only [create_session, hp]
    intro c h
    rw [hcs] at h
    simp at h
  | ok resources =>
    rcases hl : submitLoop gw session_id resources s CreatedMap.empty [] []
      with ⟨s2, tr2, log2, res⟩
    cases res with
    | error e0 =>
      have hcs : create_session gw parse template session_id user_id rootfs_url
          opts genPwd s = ⟨s2, tr2, log2, Except.error (CreateErr.api e0)⟩ := by
        simp only [create_session, hp, hl]
      intro c h
      rw [hcs] at h
      simp at h
    | ok c0 =>
      have hcs : create_session gw parse template session_id user_id rootfs_url
          opts genPwd s
          = ⟨s2, tr2,
             log2 ++ accessLog session_id user_id rootfs_url
               (resolvePassword opts.vscode_password genPwd),
             Except.ok c0⟩ := by
        simp only [create_session, hp, hl]
      intro c h
      rw [hcs] at h
      simp only [CreateOut.mk.injEq] at h
      have hc0 : c0 = c := by
        simpa using h
      subst hc0
      have hr : (submitLoop gw session_id resources s CreatedMap.empty [] []).result
          = Except.ok c0 := by
        rw [hl]
      obtain ⟨new, htr, -, hfold⟩ :=
        submitLoop_ok_split gw session_id resources s CreatedMap.empty [] [] c0 hr
      rw [hl] at htr
      simp only [List.nil_append] at htr
      constructor
      · rw [hcs]
        simp only
        rw [htr]
        exact hfold
      · rw [hcs]
        simp [accessLog]

/-- Concrete evaluation of `create_session_success_created` on a fully
successful run. -/
theorem create_session_success_created_witness :
    (⟨some ackPodS, some ackSvcS, some ackSecS⟩ : CreatedMap String)
      = List.foldl applyAck CreatedMap.empty
        (create_session gwOk parseOkW emptyTemplate sidW uidW urlW
          optsPw genW ()).trace
    ∧ pwLine ++ resolvePassword optsPw.vscode_password genW
      ∈ (create_session gwOk parseOkW emptyTemplate sidW uidW urlW
          optsPw genW ()).log :=
  create_session_success_created gwOk parseOkW emptyTemplate sidW uidW urlW
    optsPw genW () ⟨some ackPodS, some ackSvcS, some ackSecS⟩ rfl

/-! ## Character class lemmas -/

theorem idStart_imp_idCont {c : Char} (h : isIdStart c = true) : isIdCont c = true := by
  simp only [isIdStart, isIdCont, Char.isAlphanum, Bool.or_eq_true,
    decide_eq_true_eq] at h ⊢
  tauto

theorem idCont_ne_dollar {c : Char} (h : isIdCont c = true) : c ≠ dollarC := by
  intro heq
  subst heq
  exact absurd h (by decide)

theorem idCont_ne_rbrace {c : Char} (h : isIdCont c = true) : c ≠ rbraceC := by
  intro heq
  subst heq
  exact absurd h (by decide)

theorem validIdent_chars {n : List Char} (h : validIdent n = true) :
    ∀ c ∈ n, isIdCont c = true := by
  cases n with
  | nil => simp [validIdent] at h
  | cons c0 cs =>
    simp only [validIdent, Bool.and_eq_true, List.all_eq_true] at h
    intro x hx
    rcases List.mem_cons.1 hx with rfl | hx2
    · exact idStart_imp_idCont h.1
    · exact h.2 x hx2

theorem validIdent_no_rbrace {n : List Char} (h : validIdent n = true) :
    ∀ c ∈ n, c ≠ rbraceC :=
  fun c hc => idCont_ne_rbrace (validIdent_chars h c hc)

/-! ## Tokenizer invariants -/

theorem takeIdCont_all : ∀ (l : List Char), ∀ c ∈ (takeIdCont l).1, isIdCont c = true := by
  intro l
  induction l with
  | nil =>
    intro c hc
    simp [takeIdCont] at hc
  | cons c0 cs ih =>
    intro c hc
    by_cases h0 : isIdCont c0 = true
    · simp only [takeIdCont, if_pos h0] at hc
      rcases List.mem_cons.1 hc with rfl | hc2
      · exact h0
      · exact ih c hc2
    · simp only [takeIdCont, if_neg h0] at hc
      simp at hc

theorem bracedEnd_tokOk (e : Char) (run rest cs : List Char)
    (he : isIdStart e = true) (hrun : ∀ c ∈ run, isIdCont c = true) :
    tokOk (bracedEnd e run rest cs).1 := by
  unfold bracedEnd
  split
  · split
    · show validIdent (e :: run) = true
      simp only [validIdent, Bool.and_eq_true, List.all_eq_true]
      exact ⟨he, hrun⟩
    · trivial
  · trivial

theorem nextStep_tokOk (c : Char) (cs : List Char) : tokOk (nextStep c cs).1 := by
  unfold nextStep
  split
  · split
    · trivial
    · split
      · trivial
      · split
        · split
          · trivial
          · split
            · rename_i e es he
              exact bracedEnd_tokOk e (takeIdCont es).1 (takeIdCont es).2 _ he
                (takeIdCont_all es)
            · trivial
        · split
          · rename_i d ds hd hb hi
            show validIdent (d :: (takeIdCont ds).1) = true
            simp only [validIdent, Bool.and_eq_true, List.all_eq_true]
            exact ⟨hi, takeIdCont_all ds⟩
          · trivial
  · rename_i hc
    exact hc

theorem tokenizeFuel_tokOk : ∀ (k : Nat) (cs : List Char),
    ∀ t ∈ tokenizeFuel k cs, tokOk t := by
  intro k
  induction k with
  | zero =>
    intro cs t ht
    simp [tokenizeFuel] at ht
  | succ k ih =>
    intro cs t ht
    cases cs with
    | nil => simp [tokenizeFuel] at ht
    | cons c cs2 =>
      simp only [tokenizeFuel] at ht
      rcases List.mem_cons.1 ht with rfl | ht2
      · exact nextStep_tokOk c cs2
      · exact ih _ t ht2

theorem tokenize_tokOk (cs : List Char) : ∀ t ∈ tokenize cs, tokOk t :=
  tokenizeFuel_tokOk cs.length cs

/-! ## Rendered piece lemmas -/

theorem lookupVar_no_dollar : ∀ (m : List (List Char × List Char)) (n v : List Char),
    (∀ p ∈ m, dollarC ∉ p.2) → lookupVar m n = some v → dollarC ∉ v := by
  intro m
  induction m with
  | nil =>
    intro n v _ h
    simp [lookupVar] at h
  | cons p ps ih =>
    intro n v hvals h
    simp only [lookupVar] at h
    by_cases hp : p.1 = n
    · rw [if_pos hp] at h
      have hv : p.2 = v := by
        injection h
      rw [← hv]
      exact hvals p (List.mem_cons_self p ps)
    · rw [if_neg hp] at h
      exact ih n v (fun q hq => hvals q (List.mem_cons_of_mem p hq)) h

theorem renderTok_tail_no_dollar {m : List (List Char × List Char)}
    (hvals : ∀ p ∈ m, dollarC ∉ p.2) (t : STok) (ht : tokOk t)
    (hpl : STok.plainTok t = true) : dollarC ∉ (renderTok m t).drop 1 := by
  cases t with
  | lit c => simp [renderTok]
  | braced n =>
    cases hl : lookupVar m n with
    | some v =>
      simp only [renderTok, hl]
      intro hmem
      exact lookupVar_no_dollar m n v hvals hl (List.drop_subset 1 v hmem)
    | none =>
      simp only [renderTok, hl, List.drop_succ_cons, List.drop_zero]
      intro hmem
      rcases List.mem_cons.1 hmem with heq | hmem2
      · exact absurd heq (by decide)
      · rcases List.mem_append.1 hmem2 with hn | hb
        · exact idCont_ne_dollar (validIdent_chars ht dollarC hn) rfl
        · have : dollarC = rbraceC := by
            simpa using hb
          exact absurd this (by decide)
  | bare n => simp [STok.plainTok] at hpl
  | escaped => simp [STok.plainTok] at hpl
  | invalid => simp [STok.plainTok] at hpl

theorem renderTok_head_dollar {m : List (List Char × List Char)}
    (hvals : ∀ p ∈ m, dollarC ∉ p.2) (t : STok) (ht : tokOk t)
    (hpl : STok.plainTok t = true)
    (hd : (renderTok m t).head? = some dollarC) :
    ∃ n, t = STok.braced n ∧ lookupVar m n = none ∧ validIdent n = true
      ∧ renderTok m t = dollarC :: lbraceC :: (n ++ [rbraceC]) := by
  cases t with
  | lit c =>
    simp only [renderTok, List.head?_cons, Option.some.injEq] at hd
    exact absurd hd ht
  | braced n =>
    cases hl : lookupVar m n with
    | some v =>
      simp only [renderTok, hl] at hd
      have hdv : dollarC ∈ v := by
        cases v with
        | nil => simp at hd
        | cons a l =>
          simp only [List.head?_cons, Option.some.injEq] at hd
          rw [← hd]
          exact List.mem_cons_self a l
      exact absurd hdv (lookupVar_no_dollar m n v hvals hl)
    | none => exact ⟨n, rfl, hl, ht, by simp [renderTok, hl]⟩
  | bare n => simp [STok.plainTok] at hpl
  | escaped => simp [STok.plainTok] at hpl
  | invalid => simp [STok.plainTok] at hpl

/-! ## Locating a delimiter in a flattened output -/

theorem flatten_dollar_split :
    ∀ (ps : List (List Char)),
      (∀ p ∈ ps, dollarC ∉ p.drop 1) →
      ∀ (s u : List Char), ps.flatten = s ++ dollarC :: u →
      ∃ l p r, ps = l ++ p :: r ∧ p.head? = some dollarC ∧ s = l.flatten
        ∧ dollarC :: u = p ++ r.flatten := by
  intro ps
  induction ps with
  | nil =>
    intro _ s u h
    simp only [List.flatten_nil] at h
    exact absurd h.symm (by simp)
  | cons p ps ih =>
    intro hinv s u h
    have hinvt : ∀ q ∈ ps, dollarC ∉ q.drop 1 :=
      fun q hq => hinv q (List.mem_cons_of_mem p hq)
    simp only [List.flatten_cons] at h
    rcases List.append_eq_append_iff.1 h with ⟨a2, hs, hrest⟩ | ⟨c2, hp, hrest⟩
    · obtain ⟨l, q, r, hps, hq, ha, hqu⟩ := ih hinvt a2 u hrest
      refine ⟨p :: l, q, r, by rw [hps]; rfl, hq, ?_, hqu⟩
      rw [hs, ha]
      simp [List.flatten_cons]
    · cases c2 with
      | nil =>
        simp only [List.append_nil] at hp
        simp only [List.nil_append] at hrest
        obtain ⟨l, q, r, hps, hq, ha, hqu⟩ := ih hinvt [] u (by simpa using hrest.symm)
        refine ⟨p :: l, q, r, by rw [hps]; rfl, hq, ?_, hqu⟩
        rw [List.flatten_cons, ← ha]
        simp [hp]
      | cons c0 c2t =>
        have hc0 : dollarC = c0 ∧ u = c2t ++ ps.flatten := by
          have := hrest
          simp only [List.cons_append] at this
          exact ⟨(List.cons.inj this).1, (List.cons.inj this).2⟩
        cases s with
        | nil =>
          refine ⟨[], p, ps, rfl, ?_, rfl, ?_⟩
          · rw [hp]
            simp [← hc0.1]
          · rw [hp, hc0.2]
            simp [← hc0.1]
        | cons s0 st =>
          exfalso
          apply hinv p (List.mem_cons_self p ps)
          rw [hp]
          simp only [List.cons_append, List.drop_succ_cons, List.drop_zero]
          rw [← hc0.1]
          simp

/-! ## Identifier comparison after a closing brace -/

theorem ident_eq_of_append_rbrace :
    ∀ (n m2 : List Char), (∀ c ∈ n, c ≠ rbraceC) → (∀ c ∈ m2, c ≠ rbraceC) →
    ∀ (t w : List Char), n ++ rbraceC :: t = m2 ++ rbraceC :: w → n = m2 := by
  intro n
  induction n with
  | nil =>
    intro m2 hn hm t w h
    cases m2 with
    | nil => rfl
    | cons c0 ms =>
      exfalso
      simp only [List.nil_append, List.cons_append] at h
      exact hm c0 (List.mem_cons_self c0 ms) (List.cons.inj h).1.symm
  | cons c0 ns ih =>
    intro m2 hn hm t w h
    cases m2 with
    | nil =>
      exfalso
      simp only [List.cons_append, List.nil_append] at h
      exact hn c0 (List.mem_cons_self c0 ns) (List.cons.inj h).1
    | cons d0 ms =>
      simp only [List.cons_append] at h
      obtain ⟨h1, h2⟩ := List.cons.inj h
      rw [h1]
      have := ih ms (fun c hc => hn c (List.mem_cons_of_mem c0 hc))
        (fun c hc => hm c (List.mem_cons_of_mem d0 hc)) t w h2
      rw [this]

/-- C5 (amended): for a template whose tokens are only literal text and
braced placeholders (no `$$` escape, bare `$name`, or stray `$` — the
placeholder style of the shipped template), and a variable mapping whose
values are free of the `$` delimiter, the rendered output contains no
unresolved placeholder, braced or bare, for any valid name present in the
mapping; and a placeholder whose name is absent from the mapping renders
byte-identically to its source text. -/
theorem safe_substitute_resolves (tmpl : List Char)
    (m : List (List Char × List Char))
    (hplain : ∀ t ∈ tokenize tmpl, STok.plainTok t = true)
    (hvals : ∀ p ∈ m, dollarC ∉ p.2) :
    (∀ n, validIdent n = true → lookupVar m n ≠ none →
      ¬ unresolvedIn (safeSubstitute tmpl m) n)
    ∧ (∀ t ∈ tokenize tmpl, ∀ nm,
        (t = STok.braced nm ∨ t = STok.bare nm) → lookupVar m nm = none →
        renderTok m t = tokText t) := by
  constructor
  · intro n hval hlk hun
    have hinv : ∀ p ∈ List.map (renderTok m) (tokenize tmpl), dollarC ∉ p.drop 1 := by
      intro p hp
      rcases List.mem_map.1 hp with ⟨t, ht, rfl⟩
      exact renderTok_tail_no_dollar hvals t (tokenize_tokOk tmpl t ht) (hplain t ht)
    cases hun with
    | inl hb =>
      rcases hb with ⟨t0, u0, hout⟩
      simp only [safeSubstitute] at hout
      have hout2 : (List.map (renderTok m) (tokenize tmpl)).flatten
          = t0 ++ dollarC :: (lbraceC :: (n ++ rbraceC :: u0)) := by
        rw [hout]
        simp [bracedPat, List.append_assoc]
      obtain ⟨l, p, r, hps, hq, -, hpu⟩ := flatten_dollar_split _ hinv t0 _ hout2
      have hpmem : p ∈ List.map (renderTok m) (tokenize tmpl) := by
        rw [hps]
        exact List.mem_append_right l (List.mem_cons_self p r)
      rcases List.mem_map.1 hpmem with ⟨t, htk, hpt⟩
      obtain ⟨m2, -, hlm2, hvm2, hpform⟩ :=
        renderTok_head_dollar hvals t (tokenize_tokOk tmpl t htk) (hplain t htk)
          (by rw [hpt]; exact hq)
      rw [← hpt, hpform] at hpu
      have hids : n ++ rbraceC :: u0 = m2 ++ rbraceC :: r.flatten := by
        have := hpu
        simp only [List.cons_append, List.append_assoc, List.singleton_append] at this
        exact (List.cons.inj (List.cons.inj this).2).2
      have hnm2 : n = m2 :=
        ident_eq_of_append_rbrace n m2 (validIdent_no_rbrace hval)
          (validIdent_no_rbrace hvm2) u0 r.flatten hids
      rw [hnm2] at hlk
      exact hlk hlm2
    | inr hb =>
      rcases hb with ⟨t0, u0, hout, -⟩
      simp only [safeSubstitute] at hout
      have hout2 : (List.map (renderTok m) (tokenize tmpl)).flatten
          = t0 ++ dollarC :: (n ++ u0) := by
        rw [hout]
        simp [List.append_assoc]
      obtain ⟨l, p, r, hps, hq, -, hpu⟩ := flatten_dollar_split _ hinv t0 _ hout2
      have hpmem : p ∈ List.map (renderTok m) (tokenize tmpl) := by
        rw [hps]
        exact List.mem_append_right l (List.mem_cons_self p r)
      rcases List.mem_map.1 hpmem with ⟨t, htk, hpt⟩
      obtain ⟨m2, -, -, -, hpform⟩ :=
        renderTok_head_dollar hvals t (tokenize_tokOk tmpl t htk) (hplain t htk)
          (by rw [hpt]; exact hq)
      rw [← hpt, hpform] at hpu
      cases n with
      | nil => simp [validIdent] at hval
      | cons n0 nt =>
        have hstart : isIdStart n0 = true := by
          simp only [validIdent, Bool.and_eq_true] at hval
          exact hval.1
        have hn0 : n0 = lbraceC := by
          have := hpu
          simp only [List.cons_append] at this
          exact (List.cons.inj (List.cons.inj this).2).1
        rw [hn0] at hstart
        exact absurd hstart (by decide)
  · intro t ht nm hb hln
    rcases hb with rfl | rfl
    · simp [renderTok, tokText, hln]
    · simp [renderTok, tokText, hln]

/-- C5 counterexample: the claim fails over arbitrary mappings — with
template `${A}` and the mapping sending `A` to the text `${A}`, the name
`A` is present in the mapping yet the rendered output still contains the
placeholder `${A}`. -/
theorem safe_substitute_unresolved_cex :
    lookupVar cexMap aNameL ≠ none
    ∧ unresolvedIn (safeSubstitute cexTmpl cexMap) aNameL := by
  refine ⟨by decide, Or.inl ⟨[], [], ?_⟩⟩
  decide

/-- Concrete evaluation of `safe_substitute_resolves` on the braced-only
template `${A}x` with a delimiter-free mapping. -/
theorem safe_substitute_resolves_witness :
    validIdent aNameL = true
    ∧ ¬ unresolvedIn (safeSubstitute tmplW5 mapW5) aNameL :=
  ⟨by decide,
   (safe_substitute_resolves tmplW5 mapW5 (by decide) (by decide)).1 aNameL
     (by decide) (by decide)⟩

end Dozlab
